import Mathlib

/-!
Verification of the live-location core of the Virtual-Lab-Simulator repository.

The development shallowly embeds three parts of the source:
* the Firestore-backed publish/subscribe layer of `firebaseService`
  (`updateLiveLocation`, `stopLiveLocation`, `subscribeToLiveLocation`),
  with the `liveLocations` collection modelled as an association list from
  document id to document and the Firestore primitives `setDoc` with merge,
  `updateDoc` (which fails on a missing document) and the snapshot query
  (filter, order by timestamp descending, limit 1) modelled per their
  documented semantics;
* the `LocationService` class of `locationService.ts` (`calculateSpeed`,
  `calculateDistance`, `stopWatching`, `getCurrentPosition`, watch ticks),
  with real-number arithmetic standing in for JavaScript floats;
* the `DriverDashboard` tracking controls (`startTracking`, `stopTracking`)
  together with the conditional rendering of the start/stop buttons.
-/

namespace LiveStore

/-- Payload of `FirebaseService.updateLiveLocation`: the `LiveLocation`
interface of the firebase service source. All eight fields are required by
the TypeScript interface, `isActive` included. -/
structure LiveLocation where
  driverId : String
  busNumber : String
  latitude : ℚ
  longitude : ℚ
  speed : ℚ
  timestamp : ℤ
  accuracy : ℚ
  isActive : Bool
  deriving DecidableEq

/-- Document stored in the `liveLocations` collection: the `LiveLocation`
fields plus the `stoppedAt` field that `stopLiveLocation` adds via
`updateDoc` (absent until the first stop). -/
structure LiveDoc where
  driverId : String
  busNumber : String
  latitude : ℚ
  longitude : ℚ
  speed : ℚ
  timestamp : ℤ
  accuracy : ℚ
  isActive : Bool
  stoppedAt : Option ℤ
  deriving DecidableEq

/-- The `liveLocations` collection: a keyed association list from document id
to document. `updateLiveLocation` uses `locationData.driverId` as the id. -/
abbrev Store := List (String × LiveDoc)

/-- Point read of the document with the given id. -/
def findDoc (s : Store) (k : String) : Option LiveDoc :=
  match s with
  | [] => none
  | e :: t => if e.1 = k then some e.2 else findDoc t k

/-- Document created when `setDoc` with merge writes to a fresh id: exactly
the payload fields, with no `stoppedAt` field yet. -/
def docOfPayload (r : LiveLocation) : LiveDoc :=
  ⟨r.driverId, r.busNumber, r.latitude, r.longitude, r.speed, r.timestamp,
    r.accuracy, r.isActive, none⟩

/-- Firestore merge of the full `LiveLocation` payload into an existing
document: every payload field is overwritten (the payload supplies all of
them) and only the `stoppedAt` field, absent from the payload, survives. -/
def mergePayload (old : LiveDoc) (r : LiveLocation) : LiveDoc :=
  ⟨r.driverId, r.busNumber, r.latitude, r.longitude, r.speed, r.timestamp,
    r.accuracy, r.isActive, old.stoppedAt⟩

/-- In-place modification of the document with the given id, leaving every
other document untouched. -/
def mapDoc (s : Store) (d : String) (f : LiveDoc → LiveDoc) : Store :=
  s.map fun e => if e.1 = d then (e.1, f e.2) else e

/-- Embedding of `FirebaseService.updateLiveLocation`: a `setDoc` with
merge on the document `liveLocations/locationData.driverId`, creating the
document when absent and merging the payload fields into it otherwise. -/
def updateLiveLocation (s : Store) (r : LiveLocation) : Store :=
  if (findDoc s r.driverId).isSome then
    mapDoc s r.driverId fun old => mergePayload old r
  else
    (r.driverId, docOfPayload r) :: s

/-- Update written by `stopLiveLocation`: `isActive` becomes false and
`stoppedAt` the current time; no other field is mentioned. -/
def stopUpdate (now : ℤ) (old : LiveDoc) : LiveDoc :=
  { old with isActive := false, stoppedAt := some now }

/-- Embedding of `FirebaseService.stopLiveLocation`: an `updateDoc` on
`liveLocations/driverId` setting `isActive` to false and `stoppedAt` to the
current time. Firestore's `updateDoc` fails on a missing document and never
creates one, so the update is fallible. -/
def stopLiveLocation (s : Store) (driverId : String) (now : ℤ) :
    Except String Store :=
  if (findDoc s driverId).isSome then
    .ok (mapDoc s driverId (stopUpdate now))
  else
    .error "updateDoc: no document to update"

/-- Descending-timestamp ordering used by the subscription query's
`orderBy` clause. -/
def tsDesc (a b : LiveDoc) : Prop := b.timestamp ≤ a.timestamp

instance : DecidableRel tsDesc := fun a b => Int.decLe b.timestamp a.timestamp

/-- Embedding of `FirebaseService.subscribeToLiveLocation`: the value a
snapshot of the query (`busNumber` equal, `isActive` true, ordered by
timestamp descending, limit 1) passes to the callback — the first matching
document, or `null` when the snapshot is empty. -/
def subscribeToLiveLocation (s : Store) (busNumber : String) : Option LiveDoc :=
  (List.insertionSort tsDesc
    ((s.map Prod.snd).filter fun v => v.busNumber == busNumber && v.isActive)).head?

/-- Operations a driver session performs against the `liveLocations`
collection. -/
inductive StoreOp where
  | publish (r : LiveLocation)
  | deactivate (driverId : String) (now : ℤ)
  deriving DecidableEq

/-- Effect of one operation on the collection; a failed `updateDoc` leaves
the collection unchanged. -/
def runOp (s : Store) : StoreOp → Store
  | .publish r => updateLiveLocation s r
  | .deactivate d now =>
    match stopLiveLocation s d now with
    | .ok t => t
    | .error _ => s

/-- Collection reached from empty by a sequence of operations. -/
def runOps (ops : List StoreOp) : Store := ops.foldl runOp []

/-- Number of documents that are active for the given bus number (the route
key observers subscribe with). -/
def activeCount (s : Store) (busNumber : String) : ℕ :=
  (s.filter fun e => e.2.busNumber == busNumber && e.2.isActive).length

/-- Document ids present in the collection. -/
def storeKeys (s : Store) : List String := s.map Prod.fst

/-- Concrete record of a first driver publishing on bus `B1`. -/
def sampleA : LiveLocation := ⟨"driver1", "B1", 11, 76, 0, 1000, 5, true⟩

/-- Concrete record of a second, distinct driver publishing on the same bus
`B1`. -/
def sampleB : LiveLocation := ⟨"driver2", "B1", 12, 77, 0, 2000, 5, true⟩

theorem findDoc_eq_none_iff (s : Store) (k : String) :
    findDoc s k = none ↔ ∀ e ∈ s, e.1 ≠ k := by
  induction s with
  | nil => simp [findDoc]
  | cons e t ih =>
    by_cases h : e.1 = k <;> simp [findDoc, h, ih]

theorem findDoc_mapDoc (s : Store) (d : String) (f : LiveDoc → LiveDoc)
    (k : String) :
    findDoc (mapDoc s d f) k =
      if k = d then (findDoc s d).map f else findDoc s k := by
  induction s with
  | nil => by_cases h : k = d <;> simp [findDoc, mapDoc, h]
  | cons e t ih =>
    by_cases hed : e.1 = d
    · by_cases hkd : k = d
      · simp [findDoc, mapDoc, hed, hkd]
      · have hdk : ¬ d = k := fun h => hkd h.symm
        simp only [mapDoc, List.map] at ih ⊢
        simp [findDoc, hed, hkd, hdk, ih]
    · by_cases hek : e.1 = k
      · have hkd : ¬ k = d := by rw [← hek]; exact hed
        simp [findDoc, mapDoc, hed, hek, hkd]
      · simp only [mapDoc, List.map] at ih ⊢
        simp [findDoc, hed, hek, ih]

theorem storeKeys_mapDoc (s : Store) (d : String) (f : LiveDoc → LiveDoc) :
    storeKeys (mapDoc s d f) = storeKeys s := by
  induction s with
  | nil => rfl
  | cons e t ih =>
    simp only [mapDoc, List.map] at ih ⊢
    by_cases hed : e.1 = d <;> simp [storeKeys, hed] <;>
      simpa [storeKeys] using ih

@[simp] theorem mergePayload_docOfPayload (r : LiveLocation) :
    mergePayload (docOfPayload r) r = docOfPayload r := rfl

@[simp] theorem mergePayload_mergePayload (old : LiveDoc) (r : LiveLocation) :
    mergePayload (mergePayload old r) r = mergePayload old r := rfl

theorem findDoc_updateLiveLocation (s : Store) (r : LiveLocation) (k : String) :
    findDoc (updateLiveLocation s r) k =
      if k = r.driverId then
        some (mergePayload ((findDoc s r.driverId).getD (docOfPayload r)) r)
      else findDoc s k := by
  cases hfd : findDoc s r.driverId with
  | some v =>
    have h : (findDoc s r.driverId).isSome := by rw [hfd]; rfl
    rw [updateLiveLocation, if_pos h, findDoc_mapDoc]
    by_cases hk : k = r.driverId <;> simp [hk, hfd]
  | none =>
    have h : ¬ (findDoc s r.driverId).isSome := by rw [hfd]; simp
    rw [updateLiveLocation, if_neg h]
    by_cases hk : k = r.driverId
    · simp [findDoc, hk, hfd]
    · have hdk : ¬ r.driverId = k := fun hh => hk hh.symm
      simp [findDoc, hk, hdk, hfd]

theorem mapDoc_mapDoc (s : Store) (d : String) (f g : LiveDoc → LiveDoc) :
    mapDoc (mapDoc s d g) d f = mapDoc s d (fun x => f (g x)) := by
  simp only [mapDoc, List.map_map]
  apply List.map_congr_left
  intro e _
  by_cases he : e.1 = d <;> simp [Function.comp, he]

theorem mapDoc_eq_self (s : Store) (d : String) (f : LiveDoc → LiveDoc)
    (h : ∀ e ∈ s, e.1 ≠ d) : mapDoc s d f = s := by
  simp only [mapDoc]
  have hh : ∀ e ∈ s,
      (if e.1 = d then (e.1, f e.2) else e) = id e := by
    intro e he
    simp [h e he]
  rw [List.map_congr_left hh, List.map_id]

theorem updateLiveLocation_idem (s : Store) (r : LiveLocation) :
    updateLiveLocation (updateLiveLocation s r) r = updateLiveLocation s r := by
  cases hfd : findDoc s r.driverId with
  | some v =>
    have h : (findDoc s r.driverId).isSome := by rw [hfd]; rfl
    have e1 : updateLiveLocation s r =
        mapDoc s r.driverId fun old => mergePayload old r := by
      rw [updateLiveLocation, if_pos h]
    have h2 : (findDoc (updateLiveLocation s r) r.driverId).isSome := by
      rw [findDoc_updateLiveLocation]; simp
    rw [updateLiveLocation, if_pos h2, e1, mapDoc_mapDoc]
    simp
  | none =>
    have h : ¬ (findDoc s r.driverId).isSome := by rw [hfd]; simp
    have e1 : updateLiveLocation s r = (r.driverId, docOfPayload r) :: s := by
      rw [updateLiveLocation, if_neg h]
    have h2 : (findDoc (updateLiveLocation s r) r.driverId).isSome := by
      rw [e1]; simp [findDoc]
    have hs : ∀ e ∈ s, e.1 ≠ r.driverId := (findDoc_eq_none_iff s r.driverId).mp hfd
    rw [updateLiveLocation, if_pos h2, e1]
    show mapDoc ((r.driverId, docOfPayload r) :: s) r.driverId _ = _
    simp only [mapDoc, List.map, if_pos rfl, mergePayload_docOfPayload]
    rw [show (List.map
        (fun e => if e.1 = r.driverId then (e.1, mergePayload e.2 r) else e) s) =
        mapDoc s r.driverId (fun old => mergePayload old r) from rfl,
      mapDoc_eq_self s r.driverId _ hs]
    simp

theorem runOp_deactivate (s : Store) (d : String) (now : ℤ) :
    runOp s (.deactivate d now) =
      if (findDoc s d).isSome then mapDoc s d (stopUpdate now) else s := by
  by_cases h : (findDoc s d).isSome <;> simp [runOp, stopLiveLocation, h]

theorem length_filter_le_of_imp {α : Type} (l : List α) (p q : α → Bool)
    (h : ∀ a ∈ l, p a = true → q a = true) :
    (l.filter p).length ≤ (l.filter q).length := by
  induction l with
  | nil => simp
  | cons a t ih =>
    have ht : ∀ x ∈ t, p x = true → q x = true := fun x hx =>
      h x (List.mem_cons_of_mem a hx)
    cases hp : p a with
    | true =>
      have hq : q a = true := h a (List.mem_cons_self a t) hp
      simpa [List.filter_cons, hp, hq] using ih ht
    | false =>
      cases hq : q a with
      | true =>
        simp only [List.filter_cons, hp, hq]
        simpa using Nat.le_succ_of_le (ih ht)
      | false => simpa [List.filter_cons, hp, hq] using ih ht

theorem length_filter_key_le_one (s : Store) (k : String)
    (h : (storeKeys s).Nodup) :
    (s.filter fun e => e.1 == k).length ≤ 1 := by
  induction s with
  | nil => simp
  | cons e t ih =>
    have hk : storeKeys (e :: t) = e.1 :: storeKeys t := rfl
    rw [hk, List.nodup_cons] at h
    cases hek : (e.1 == k) with
    | false => simpa [List.filter_cons, hek] using ih h.2
    | true =>
      have hek' : e.1 = k := by simpa using hek
      have hnil : t.filter (fun x => x.1 == k) = [] := by
        apply List.filter_eq_nil_iff.mpr
        intro x hx
        have : x.1 ∈ storeKeys t := List.mem_map_of_mem Prod.fst hx
        have hne : x.1 ≠ k := by
          intro hxk
          exact h.1 (by rw [hek', ← hxk]; exact this)
        simpa using hne
      simp [List.filter_cons, hek, hnil]

/-- Store invariant for the single-driver-per-route assumption: document ids
are unique and every document's id is the designated driver of its bus. -/
def GoodStore (f : String → String) (s : Store) : Prop :=
  (storeKeys s).Nodup ∧ ∀ e ∈ s, e.1 = f e.2.busNumber

theorem goodStore_runOp (f : String → String) (s : Store) (op : StoreOp)
    (hs : GoodStore f s)
    (hop : ∀ r, op = StoreOp.publish r → r.driverId = f r.busNumber) :
    GoodStore f (runOp s op) := by
  cases op with
  | publish r =>
    have hr : r.driverId = f r.busNumber := hop r rfl
    by_cases h : (findDoc s r.driverId).isSome
    · rw [runOp, updateLiveLocation, if_pos h]
      refine ⟨by rw [storeKeys_mapDoc]; exact hs.1, ?_⟩
      intro e' he'
      simp only [mapDoc] at he'
      obtain ⟨e, he, heq⟩ := List.mem_map.mp he'
      by_cases hed : e.1 = r.driverId
      · rw [if_pos hed] at heq
        rw [← heq]
        simpa [mergePayload, hed] using hr
      · rw [if_neg hed] at heq
        rw [← heq]
        exact hs.2 e he
    · rw [runOp, updateLiveLocation, if_neg h]
      have hnone : findDoc s r.driverId = none := by
        cases hfd : findDoc s r.driverId with
        | none => rfl
        | some v => rw [hfd] at h; simp at h
      have hnotin : r.driverId ∉ storeKeys s := by
        intro hmem
        obtain ⟨e, he, heq⟩ := List.mem_map.mp hmem
        exact ((findDoc_eq_none_iff s r.driverId).mp hnone e he) heq
      refine ⟨List.nodup_cons.mpr ⟨hnotin, hs.1⟩, ?_⟩
      intro e he
      rcases List.mem_cons.mp he with he | he
      · rw [he]; simpa [docOfPayload] using hr
      · exact hs.2 e he
  | deactivate d now =>
    rw [runOp_deactivate]
    by_cases h : (findDoc s d).isSome
    · rw [if_pos h]
      refine ⟨by rw [storeKeys_mapDoc]; exact hs.1, ?_⟩
      intro e' he'
      simp only [mapDoc] at he'
      obtain ⟨e, he, heq⟩ := List.mem_map.mp he'
      by_cases hed : e.1 = d
      · rw [if_pos hed] at heq
        rw [← heq]
        simpa [stopUpdate] using hs.2 e he
      · rw [if_neg hed] at heq
        rw [← heq]
        exact hs.2 e he
    · rw [if_neg h]; exact hs

theorem goodStore_foldl (f : String → String) (ops : List StoreOp) :
    ∀ s : Store, GoodStore f s →
      (∀ r, StoreOp.publish r ∈ ops → r.driverId = f r.busNumber) →
      GoodStore f (ops.foldl runOp s) := by
  induction ops with
  | nil => intro s hs _; exact hs
  | cons op t ih =>
    intro s hs hops
    rw [List.foldl_cons]
    exact ih (runOp s op)
      (goodStore_runOp f s op hs fun r hr =>
        hops r (hr ▸ List.mem_cons_self op t))
      (fun r hr => hops r (List.mem_cons_of_mem op hr))

theorem activeCount_le_one_of_goodStore (f : String → String) (s : Store)
    (hs : GoodStore f s) (b : String) : activeCount s b ≤ 1 := by
  have hmono := length_filter_le_of_imp s
    (fun e => e.2.busNumber == b && e.2.isActive) (fun e => e.1 == f b) ?_
  · exact le_trans hmono (length_filter_key_le_one s (f b) hs.1)
  · intro e he hp
    have hb : e.2.busNumber = b := by
      have := (Bool.and_eq_true _ _).mp hp
      simpa using this.1
    have := hs.2 e he
    simp [this, hb]

theorem subscribeToLiveLocation_eq_none_iff (s : Store) (b : String) :
    subscribeToLiveLocation s b = none ↔
      ∀ e ∈ s, e.2.busNumber = b → e.2.isActive = false := by
  unfold subscribeToLiveLocation
  rw [List.head?_eq_none_iff]
  have hp := List.perm_insertionSort tsDesc
    ((s.map Prod.snd).filter fun v => v.busNumber == b && v.isActive)
  constructor
  · intro h e he hb
    have hnil : ((s.map Prod.snd).filter
        fun v => v.busNumber == b && v.isActive) = [] := by
      have := hp.length_eq
      rw [h] at this
      exact List.eq_nil_of_length_eq_zero this.symm
    have hall := List.filter_eq_nil_iff.mp hnil
    have hmem : e.2 ∈ s.map Prod.snd := List.mem_map_of_mem Prod.snd he
    have := hall e.2 hmem
    simp [hb] at this
    exact this
  · intro h
    have hnil : ((s.map Prod.snd).filter
        fun v => v.busNumber == b && v.isActive) = [] := by
      apply List.filter_eq_nil_iff.mpr
      intro v hv
      obtain ⟨e, he, heq⟩ := List.mem_map.mp hv
      by_cases hb : v.busNumber = b
      · have := h e he (heq ▸ hb)
        simp [heq ▸ this]
      · simp [hb]
    rw [hnil]
    rfl

theorem subscribeToLiveLocation_some (s : Store) (b : String) (v : LiveDoc)
    (h : subscribeToLiveLocation s b = some v) :
    v.busNumber = b ∧ v.isActive = true := by
  unfold subscribeToLiveLocation at h
  have hp := List.perm_insertionSort tsDesc
    ((s.map Prod.snd).filter fun v => v.busNumber == b && v.isActive)
  have hv : v ∈ List.insertionSort tsDesc
      ((s.map Prod.snd).filter fun v => v.busNumber == b && v.isActive) :=
    List.mem_of_mem_head? (by simp [h])
  have hvf := hp.mem_iff.mp hv
  have := List.of_mem_filter hvf
  simpa using this

/-- Claim C5 counterexample: with two distinct drivers both publishing as
active on bus `B1`, deactivating the first driver's record leaves the
subscription on `B1` delivering the second driver's record, not `null`,
even though the deactivated record itself is now inactive. -/
theorem subscribeRoute_after_deactivate_not_null :
    (findDoc (runOp (runOps [.publish sampleA, .publish sampleB])
        (.deactivate "driver1" 3000)) "driver1").map LiveDoc.isActive =
      some false ∧
    subscribeToLiveLocation (runOp (runOps [.publish sampleA, .publish sampleB])
        (.deactivate "driver1" 3000)) "B1" = some (docOfPayload sampleB) := by
  constructor <;> decide

/-- Claim C5 (amended): for every store state, the subscription callback for
a bus number receives `null` exactly when no active document for that bus
exists, and otherwise a document that matches the bus and is active;
after `stopLiveLocation driverId`, the next callback receives `null`
provided every active document for the bus was keyed by that driver. -/
theorem subscribeRoute_null_exactly_when_inactive (s : Store) (b d : String)
    (now : ℤ) :
    (subscribeToLiveLocation s b = none ↔
      ∀ e ∈ s, e.2.busNumber = b → e.2.isActive = false) ∧
    (∀ v, subscribeToLiveLocation s b = some v →
      v.busNumber = b ∧ v.isActive = true) ∧
    ((∀ e ∈ s, e.2.busNumber = b → e.2.isActive = true → e.1 = d) →
      subscribeToLiveLocation (runOp s (.deactivate d now)) b = none) := by
  refine ⟨subscribeToLiveLocation_eq_none_iff s b,
    fun v => subscribeToLiveLocation_some s b v, ?_⟩
  intro honly
  rw [runOp_deactivate]
  by_cases h : (findDoc s d).isSome
  · rw [if_pos h]
    apply (subscribeToLiveLocation_eq_none_iff _ b).mpr
    intro e' he' hb
    simp only [mapDoc] at he'
    obtain ⟨e, he, heq⟩ := List.mem_map.mp he'
    by_cases hed : e.1 = d
    · rw [if_pos hed] at heq
      rw [← heq]
      rfl
    · rw [if_neg hed] at heq
      rw [← heq] at hb ⊢
      cases ha : e.2.isActive with
      | false => rfl
      | true => exact absurd (honly e he hb ha) hed
  · rw [if_neg h]
    apply (subscribeToLiveLocation_eq_none_iff s b).mpr
    intro e he hb
    have hnone : findDoc s d = none := by
      cases hfd : findDoc s d with
      | none => rfl
      | some v => rw [hfd] at h; simp at h
    have hne := (findDoc_eq_none_iff s d).mp hnone e he
    cases ha : e.2.isActive with
    | false => rfl
    | true => exact absurd (honly e he hb ha) hne

/-- Claim C5 witness: in a store holding only driver1's active record on
`B1`, the subscription delivers a matching non-null record, and after
deactivating driver1 it delivers `null`. -/
theorem subscribeRoute_null_exactly_when_inactive_witness :
    ((∀ e ∈ ([("driver1", docOfPayload sampleA)] : Store),
        e.2.busNumber = "B1" → e.2.isActive = true → e.1 = "driver1") ∧
      subscribeToLiveLocation
        (runOp ([("driver1", docOfPayload sampleA)] : Store)
          (.deactivate "driver1" 3000)) "B1" = none) ∧
    subscribeToLiveLocation ([("driver1", docOfPayload sampleA)] : Store) "B1" ≠
      none := by
  refine ⟨⟨by decide, ?_⟩, by decide⟩
  exact (subscribeRoute_null_exactly_when_inactive
    [("driver1", docOfPayload sampleA)] "B1" "driver1" 3000).2.2 (by decide)

/-- Claim C1 counterexample: two publishes that share the bus number `B1`
but come from distinct driver ids leave two documents with `isActive` true
for that route in the store, refuting per-route uniqueness for arbitrary
operation sequences. -/
theorem two_publishers_break_route_uniqueness :
    activeCount (runOps [.publish sampleA, .publish sampleB]) "B1" = 2 ∧
    ¬ activeCount (runOps [.publish sampleA, .publish sampleB]) "B1" ≤ 1 := by
  constructor <;> decide

/-- Claim C1 (amended): the store is keyed by driver id, so for every
sequence of publish and deactivate operations in which all publishes
sharing a bus number carry the driver id designated for that bus, at most
one document with `isActive` true exists per bus number at any observation
point; a publish for an existing key merges into the prior document rather
than duplicating it. -/
theorem activeCount_runOps_le_one (ops : List StoreOp) (f : String → String)
    (h : ∀ r, StoreOp.publish r ∈ ops → r.driverId = f r.busNumber)
    (b : String) :
    activeCount (runOps ops) b ≤ 1 :=
  activeCount_le_one_of_goodStore f (runOps ops)
    (goodStore_foldl f ops [] ⟨List.nodup_nil, by simp⟩ h) b

/-- Claim C1 witness: a concrete single-driver sequence of publishes and a
deactivate keeps at most one active record on bus `B1`. -/
theorem activeCount_runOps_le_one_witness :
    activeCount (runOps [.publish sampleA, .deactivate "driver1" 5,
      .publish sampleA]) "B1" ≤ 1 := by
  apply activeCount_runOps_le_one _ (fun _ => "driver1")
  intro r hr
  simp only [List.mem_cons, List.not_mem_nil, or_false] at hr
  rcases hr with h | h | h
  · cases h; rfl
  · exact StoreOp.noConfusion h
  · cases h; rfl

/-- Claim C2 counterexample: publishing two records that share bus number
`B1` under distinct driver ids yields two separate documents for that
route, so the upsert is not keyed by the route. -/
theorem publish_not_keyed_by_route :
    ((runOps [.publish sampleA, .publish sampleB]).filter
        fun e => e.2.busNumber == "B1").length = 2 ∧
    sampleA.busNumber = sampleB.busNumber ∧
    sampleA.driverId ≠ sampleB.driverId := by
  refine ⟨by decide, by decide, by decide⟩

/-- Claim C2 (amended): `updateLiveLocation` is an idempotent upsert keyed
by the record's driver id: it merges the payload fields into any existing
document for that key without a prior read, leaves every other document
unchanged, and the stored `isActive` equals the caller-supplied `isActive`
(the field is required, so nothing is set implicitly). -/
theorem updateLiveLocation_upsert (s : Store) (r : LiveLocation) :
    updateLiveLocation (updateLiveLocation s r) r = updateLiveLocation s r ∧
    findDoc (updateLiveLocation s r) r.driverId =
      some (mergePayload ((findDoc s r.driverId).getD (docOfPayload r)) r) ∧
    (findDoc (updateLiveLocation s r) r.driverId).map LiveDoc.isActive =
      some r.isActive ∧
    ∀ k, k ≠ r.driverId → findDoc (updateLiveLocation s r) k = findDoc s k := by
  refine ⟨updateLiveLocation_idem s r, ?_, ?_, ?_⟩
  · rw [findDoc_updateLiveLocation]
    simp
  · rw [findDoc_updateLiveLocation]
    simp [mergePayload]
  · intro k hk
    rw [findDoc_updateLiveLocation, if_neg hk]

/-- Claim C2 witness: publishing a concrete record into the empty store
leaves an unrelated key unread and untouched. -/
theorem updateLiveLocation_upsert_witness :
    ("x" : String) ≠ sampleA.driverId ∧
    findDoc (updateLiveLocation [] sampleA) "x" = findDoc [] "x" :=
  ⟨by decide, (updateLiveLocation_upsert [] sampleA).2.2.2 "x" (by decide)⟩

/-- Claim C6: for every existing document, `stopLiveLocation` succeeds and
rewrites exactly `isActive` to false and `stoppedAt` to the current time,
leaving latitude, longitude, speed, timestamp, accuracy and both
identifiers unchanged, and leaving every other document unchanged. -/
theorem stopLiveLocation_frame (s : Store) (d : String) (now : ℤ)
    (doc : LiveDoc) (h : findDoc s d = some doc) :
    stopLiveLocation s d now = Except.ok (mapDoc s d (stopUpdate now)) ∧
    findDoc (mapDoc s d (stopUpdate now)) d = some (stopUpdate now doc) ∧
    (stopUpdate now doc).isActive = false ∧
    (stopUpdate now doc).stoppedAt = some now ∧
    (stopUpdate now doc).driverId = doc.driverId ∧
    (stopUpdate now doc).busNumber = doc.busNumber ∧
    (stopUpdate now doc).latitude = doc.latitude ∧
    (stopUpdate now doc).longitude = doc.longitude ∧
    (stopUpdate now doc).speed = doc.speed ∧
    (stopUpdate now doc).timestamp = doc.timestamp ∧
    (stopUpdate now doc).accuracy = doc.accuracy ∧
    ∀ k, k ≠ d → findDoc (mapDoc s d (stopUpdate now)) k = findDoc s k := by
  have hs : (findDoc s d).isSome := by rw [h]; rfl
  refine ⟨by rw [stopLiveLocation, if_pos hs], ?_, rfl, rfl, rfl, rfl, rfl,
    rfl, rfl, rfl, rfl, ?_⟩
  · rw [findDoc_mapDoc, if_pos rfl, h]
    rfl
  · intro k hk
    rw [findDoc_mapDoc, if_neg hk]

/-- Claim C6 witness: deactivating driver1's concrete record succeeds with
the expected update. -/
theorem stopLiveLocation_frame_witness :
    findDoc ([("driver1", docOfPayload sampleA)] : Store) "driver1" =
      some (docOfPayload sampleA) ∧
    stopLiveLocation ([("driver1", docOfPayload sampleA)] : Store) "driver1" 9 =
      Except.ok (mapDoc [("driver1", docOfPayload sampleA)] "driver1"
        (stopUpdate 9)) :=
  ⟨by decide, (stopLiveLocation_frame [("driver1", docOfPayload sampleA)]
    "driver1" 9 (docOfPayload sampleA) (by decide)).1⟩

/-- Claim C10: calling `stopLiveLocation` for a key with no document
rejects with an error and creates no document — the store is unchanged and
no absent key becomes present — while it succeeds whenever the document
exists (which only a prior publish can have created). -/
theorem stopLiveLocation_missing (s : Store) (d : String) (now : ℤ) :
    (findDoc s d = none →
      stopLiveLocation s d now =
        Except.error "updateDoc: no document to update" ∧
      runOp s (.deactivate d now) = s) ∧
    ((findDoc s d).isSome = true →
      ∃ t, stopLiveLocation s d now = Except.ok t) ∧
    ∀ k, findDoc s k = none → findDoc (runOp s (.deactivate d now)) k = none := by
  refine ⟨?_, ?_, ?_⟩
  · intro h
    have hn : ¬ (findDoc s d).isSome := by rw [h]; simp
    exact ⟨by rw [stopLiveLocation, if_neg hn],
      by rw [runOp_deactivate, if_neg hn]⟩
  · intro h
    exact ⟨_, by rw [stopLiveLocation, if_pos h]⟩
  · intro k hk
    rw [runOp_deactivate]
    by_cases h : (findDoc s d).isSome
    · rw [if_pos h, findDoc_mapDoc]
      by_cases hkd : k = d
      · rw [hkd] at hk
        rw [if_pos hkd, hk]
        rfl
      · rw [if_neg hkd]
        exact hk
    · rw [if_neg h]
      exact hk

/-- Claim C10 witness: on the empty store, deactivating `driver1` errors
and the store stays empty. -/
theorem stopLiveLocation_missing_witness :
    stopLiveLocation ([] : Store) "driver1" 7 =
      Except.error "updateDoc: no document to update" ∧
    runOp ([] : Store) (.deactivate "driver1" 7) = ([] : Store) :=
  (stopLiveLocation_missing [] "driver1" 7).1 rfl

end LiveStore

namespace LocationService

noncomputable section

/-- Fields of `GeolocationCoordinates` used by the service; the provider's
`speed` may be `null`. Real numbers stand in for JavaScript floats. -/
structure Coords where
  latitude : ℝ
  longitude : ℝ
  speed : Option ℝ
  accuracy : ℝ

/-- The `LocationData` interface produced by the service. -/
structure LocationData where
  latitude : ℝ
  longitude : ℝ
  speed : ℝ
  timestamp : ℝ
  accuracy : ℝ

/-- Instance state of the `LocationService` class (the module exports one
singleton instance): the watch handle and the embedded estimator state,
both `null` initially. -/
structure ServiceState where
  watchId : Option ℕ
  previousLocation : Option Coords
  previousTimestamp : Option ℝ

/-- JavaScript `Math.atan2` on real arguments. -/
def atan2 (y x : ℝ) : ℝ :=
  if 0 < x then Real.arctan (y / x)
  else if x = 0 then
    if 0 < y then Real.pi / 2 else if y < 0 then -(Real.pi / 2) else 0
  else
    if 0 ≤ y then Real.arctan (y / x) + Real.pi
    else Real.arctan (y / x) - Real.pi

/-- The `a` intermediate of `LocationService.calculateDistance`: the
haversine of the angular distance. -/
def haversineA (lat1 lon1 lat2 lon2 : ℝ) : ℝ :=
  Real.sin ((lat2 - lat1) * Real.pi / 180 / 2) *
      Real.sin ((lat2 - lat1) * Real.pi / 180 / 2) +
    Real.cos (lat1 * Real.pi / 180) * Real.cos (lat2 * Real.pi / 180) *
      (Real.sin ((lon2 - lon1) * Real.pi / 180 / 2) *
        Real.sin ((lon2 - lon1) * Real.pi / 180 / 2))

/-- Embedding of `LocationService.calculateDistance`: haversine great-circle
distance in meters on a sphere of radius 6371e3. -/
def calculateDistance (lat1 lon1 lat2 lon2 : ℝ) : ℝ :=
  6371000 *
    (2 * atan2 (Real.sqrt (haversineA lat1 lon1 lat2 lon2))
      (Real.sqrt (1 - haversineA lat1 lon1 lat2 lon2)))

/-- JavaScript `Math.round(x * 10) / 10`: rounding to one decimal place,
with halves rounded up as `Math.round` does. -/
def round1 (x : ℝ) : ℝ := ((⌊x * 10 + 1 / 2⌋ : ℤ) : ℝ) / 10

/-- Embedding of `LocationService.calculateSpeed`, with the mutation of
`this.previousLocation` and `this.previousTimestamp` made explicit and the
calls to `Date.now()` within one invocation identified as one `nowMs`. The
source's seed test is the JavaScript falsy check
`!this.previousLocation || !this.previousTimestamp`: the stored location is
an object or `null`, so only `null` is falsy for it, but the stored
timestamp is a number, falsy at `null` and also at `0` — so the seed
branch is additionally taken when the stored timestamp is exactly 0. -/
def calculateSpeed (st : ServiceState) (coords : Coords) (nowMs : ℝ) :
    ℝ × ServiceState :=
  match st.previousLocation, st.previousTimestamp with
  | some prev, some prevTs =>
    if prevTs = 0 then
      (coords.speed.getD 0, ⟨st.watchId, some coords, some nowMs⟩)
    else
      let distance := calculateDistance prev.latitude prev.longitude
        coords.latitude coords.longitude
      let timeDiff := (nowMs - prevTs) / 1000
      let speed := if 0 < timeDiff then distance / timeDiff * 3.6 else 0
      (round1 speed, ⟨st.watchId, some coords, some nowMs⟩)
  | _, _ =>
    (coords.speed.getD 0, ⟨st.watchId, some coords, some nowMs⟩)

/-- Reference definition of `deriveSpeedKmh` following the specification's
words: with no previous coordinate, return the provider-reported speed (or
0 if unavailable) and seed the state; otherwise return the rounded
`distanceMeters(previous, coord) / elapsedSeconds * 3.6` when
`elapsedSeconds` is positive and exactly 0 otherwise; advance the state to
the new coordinate and timestamp in every branch. -/
def deriveSpeedKmh (st : ServiceState) (coords : Coords) (nowMs : ℝ) :
    ℝ × ServiceState :=
  match st.previousLocation, st.previousTimestamp with
  | some prev, some prevTs =>
    let elapsedSeconds := (nowMs - prevTs) / 1000
    ((if 0 < elapsedSeconds then
        round1 (calculateDistance prev.latitude prev.longitude
          coords.latitude coords.longitude / elapsedSeconds * 3.6)
      else 0), ⟨st.watchId, some coords, some nowMs⟩)
  | _, _ =>
    (coords.speed.getD 0, ⟨st.watchId, some coords, some nowMs⟩)

/-- Embedding of `LocationService.stopWatching` together with the
provider-side set of registered watches: when a watch handle is held,
`clearWatch` deregisters it and all three instance fields are reset to
`null`; otherwise nothing happens. -/
def stopWatching (provider : Finset ℕ) (st : ServiceState) :
    Finset ℕ × ServiceState :=
  match st.watchId with
  | some id => (provider.erase id, ⟨none, none, none⟩)
  | none => (provider, st)

/-- Embedding of the success path of `LocationService.getCurrentPosition`:
builds a `LocationData` from the fix, deriving the speed through the shared
`calculateSpeed` and thereby mutating the singleton's estimator state. -/
def getCurrentPosition (st : ServiceState) (coords : Coords) (nowMs : ℝ) :
    LocationData × ServiceState :=
  let r := calculateSpeed st coords nowMs
  (⟨coords.latitude, coords.longitude, r.1, nowMs, coords.accuracy⟩, r.2)

/-- Embedding of one success callback of `LocationService.startWatching`:
identical sample construction through the same shared `calculateSpeed`. -/
def watchPositionTick (st : ServiceState) (coords : Coords) (nowMs : ℝ) :
    LocationData × ServiceState :=
  let r := calculateSpeed st coords nowMs
  (⟨coords.latitude, coords.longitude, r.1, nowMs, coords.accuracy⟩, r.2)

end

theorem round1_zero : round1 0 = 0 := by
  unfold round1
  rw [show (0 : ℝ) * 10 + 1 / 2 = 1 / 2 by ring]
  rw [show ⌊(1 / 2 : ℝ)⌋ = 0 by
    rw [Int.floor_eq_zero_iff]
    constructor <;> norm_num]
  norm_num

theorem round1_nonneg (x : ℝ) (h : 0 ≤ x) : 0 ≤ round1 x := by
  unfold round1
  apply div_nonneg _ (by norm_num)
  have : (0 : ℤ) ≤ ⌊x * 10 + 1 / 2⌋ := Int.floor_nonneg.mpr (by linarith)
  exact_mod_cast this

theorem atan2_nonneg (y x : ℝ) (hy : 0 ≤ y) (hx : 0 ≤ x) : 0 ≤ atan2 y x := by
  unfold atan2
  rcases lt_trichotomy x 0 with hneg | hzero | hpos
  · exact absurd hneg (not_lt.mpr hx)
  · subst hzero
    rw [if_neg (lt_irrefl 0), if_pos rfl]
    rcases eq_or_lt_of_le hy with he | hlt
    · rw [if_neg (he ▸ lt_irrefl 0), if_neg (he ▸ lt_irrefl 0)]
    · rw [if_pos hlt]
      positivity
  · rw [if_pos hpos]
    calc (0 : ℝ) = Real.arctan 0 := Real.arctan_zero.symm
      _ ≤ Real.arctan (y / x) :=
        Real.arctan_strictMono.monotone (div_nonneg hy hpos.le)

theorem calculateDistance_nonneg (lat1 lon1 lat2 lon2 : ℝ) :
    0 ≤ calculateDistance lat1 lon1 lat2 lon2 := by
  unfold calculateDistance
  have h := atan2_nonneg (Real.sqrt (haversineA lat1 lon1 lat2 lon2))
    (Real.sqrt (1 - haversineA lat1 lon1 lat2 lon2))
    (Real.sqrt_nonneg _) (Real.sqrt_nonneg _)
  apply mul_nonneg (by norm_num)
  linarith

theorem haversineA_symm (lat1 lon1 lat2 lon2 : ℝ) :
    haversineA lat2 lon2 lat1 lon1 = haversineA lat1 lon1 lat2 lon2 := by
  unfold haversineA
  rw [show (lat1 - lat2) * Real.pi / 180 / 2 =
    -((lat2 - lat1) * Real.pi / 180 / 2) by ring]
  rw [show (lon1 - lon2) * Real.pi / 180 / 2 =
    -((lon2 - lon1) * Real.pi / 180 / 2) by ring]
  rw [Real.sin_neg, Real.sin_neg]
  ring

theorem calculateDistance_symm (lat1 lon1 lat2 lon2 : ℝ) :
    calculateDistance lat1 lon1 lat2 lon2 =
      calculateDistance lat2 lon2 lat1 lon1 := by
  unfold calculateDistance
  rw [haversineA_symm lat1 lon1 lat2 lon2]

theorem haversineA_self (lat lon : ℝ) : haversineA lat lon lat lon = 0 := by
  unfold haversineA
  simp

theorem calculateDistance_self (lat lon : ℝ) :
    calculateDistance lat lon lat lon = 0 := by
  unfold calculateDistance
  rw [haversineA_self]
  rw [Real.sqrt_zero, show (1 : ℝ) - 0 = 1 by ring, Real.sqrt_one]
  rw [show atan2 0 1 = 0 by
    unfold atan2
    rw [if_pos one_pos]
    simp [Real.arctan_zero]]
  ring

/-- Claim C7: for all coordinate pairs, `calculateDistance` is nonnegative,
vanishes on identical coordinates, and is symmetric in its two points
(exactly, in the real-number model of the floats). -/
theorem calculateDistance_metric_properties (lat1 lon1 lat2 lon2 : ℝ) :
    0 ≤ calculateDistance lat1 lon1 lat2 lon2 ∧
    calculateDistance lat1 lon1 lat1 lon1 = 0 ∧
    calculateDistance lat1 lon1 lat2 lon2 =
      calculateDistance lat2 lon2 lat1 lon1 :=
  ⟨calculateDistance_nonneg lat1 lon1 lat2 lon2,
    calculateDistance_self lat1 lon1,
    calculateDistance_symm lat1 lon1 lat2 lon2⟩

/-- Claim C3 counterexample: at a state holding a previous coordinate and
the stored timestamp exactly 0, the code's JS-falsy seed test fires and it
returns the provider-reported speed, while the specification's reference
definition computes the distance-based value — here provider speed 5
against reference value 0 (identical coordinates one second apart), so the
claimed universal equality fails at this input. -/
theorem calculateSpeed_seeds_at_zero_timestamp :
    (calculateSpeed ⟨none, some ⟨0, 0, none, 5⟩, some 0⟩
      ⟨0, 0, some 5, 5⟩ 1000).1 = 5 ∧
    (deriveSpeedKmh ⟨none, some ⟨0, 0, none, 5⟩, some 0⟩
      ⟨0, 0, some 5, 5⟩ 1000).1 = 0 ∧
    (calculateSpeed ⟨none, some ⟨0, 0, none, 5⟩, some 0⟩
        ⟨0, 0, some 5, 5⟩ 1000).1 ≠
      (deriveSpeedKmh ⟨none, some ⟨0, 0, none, 5⟩, some 0⟩
        ⟨0, 0, some 5, 5⟩ 1000).1 := by
  have h1 : (calculateSpeed ⟨none, some ⟨0, 0, none, 5⟩, some 0⟩
      ⟨0, 0, some 5, 5⟩ 1000).1 = 5 := by
    show ((if (0 : ℝ) = 0 then _ else _ : ℝ × ServiceState)).1 = 5
    rw [if_pos rfl]
    rfl
  have h2 : (deriveSpeedKmh ⟨none, some ⟨0, 0, none, 5⟩, some 0⟩
      ⟨0, 0, some 5, 5⟩ 1000).1 = 0 := by
    show (if 0 < ((1000 : ℝ) - 0) / 1000 then
      round1 (calculateDistance 0 0 0 0 / (((1000 : ℝ) - 0) / 1000) * 3.6)
      else 0) = 0
    rw [if_pos (by norm_num), calculateDistance_self, zero_div, zero_mul,
      round1_zero]
  exact ⟨h1, h2, by rw [h1, h2]; norm_num⟩

/-- Claim C3 (amended): `calculateSpeed` equals the specification's
reference `deriveSpeedKmh` at every state whose stored timestamp is not
the JS-falsy 0 — seed branch returning the provider speed (or 0) and
otherwise the rounded distance-over-time, exactly 0 on non-positive
elapsed time, with the state advanced in every branch, and a never-negative
value on the computed branch; at a stored timestamp of exactly 0 the code
instead takes the seed branch. -/
theorem calculateSpeed_eq_deriveSpeedKmh (st : ServiceState) (coords : Coords)
    (nowMs : ℝ) (hts : st.previousTimestamp ≠ some 0) :
    calculateSpeed st coords nowMs = deriveSpeedKmh st coords nowMs ∧
    (st.previousLocation.isSome = true → st.previousTimestamp.isSome = true →
      0 ≤ (calculateSpeed st coords nowMs).1) := by
  obtain ⟨w, pl, pt⟩ := st
  cases pl with
  | none => cases pt <;> exact ⟨rfl, by intro h _; simp at h⟩
  | some prev =>
    cases pt with
    | none => exact ⟨rfl, by intro _ h; simp at h⟩
    | some prevTs =>
      have h0 : ¬ prevTs = 0 := fun h => hts (by rw [h])
      constructor
      · show (if prevTs = 0 then _ else _) = _
        rw [if_neg h0]
        by_cases hd : 0 < (nowMs - prevTs) / 1000
        · simp only [deriveSpeedKmh, if_pos hd]
        · simp only [deriveSpeedKmh, if_neg hd, round1_zero]
      · intro _ _
        show 0 ≤ ((if prevTs = 0 then _ else _ : ℝ × ServiceState)).1
        rw [if_neg h0]
        show 0 ≤ round1 (if 0 < (nowMs - prevTs) / 1000 then _ else 0)
        by_cases hd : 0 < (nowMs - prevTs) / 1000
        · rw [if_pos hd]
          apply round1_nonneg
          apply mul_nonneg _ (by norm_num)
          exact div_nonneg (calculateDistance_nonneg _ _ _ _) hd.le
        · rw [if_neg hd, round1_zero]

/-- Claim C3 witness: a concrete state with a stored previous coordinate
and a nonzero stored timestamp satisfies both conjuncts. -/
theorem calculateSpeed_eq_deriveSpeedKmh_witness :
    calculateSpeed ⟨none, some ⟨0, 0, none, 5⟩, some 1⟩ ⟨1, 1, none, 5⟩ 1000 =
      deriveSpeedKmh ⟨none, some ⟨0, 0, none, 5⟩, some 1⟩ ⟨1, 1, none, 5⟩ 1000 ∧
    0 ≤ (calculateSpeed ⟨none, some ⟨0, 0, none, 5⟩, some 1⟩
      ⟨1, 1, none, 5⟩ 1000).1 :=
  ⟨(calculateSpeed_eq_deriveSpeedKmh _ _ _ (by simp)).1,
    (calculateSpeed_eq_deriveSpeedKmh ⟨none, some ⟨0, 0, none, 5⟩, some 1⟩
      ⟨1, 1, none, 5⟩ 1000 (by simp)).2 rfl rfl⟩

/-- Claim C8: `stopWatching` is idempotent, is a no-op raising no error on
a never-started or already-stopped service, and on an active watch it
deregisters the handle from the provider (so no further samples are
delivered to it) and discards the embedded estimator state. -/
theorem stopWatching_idempotent (p : Finset ℕ) (st : ServiceState) :
    stopWatching (stopWatching p st).1 (stopWatching p st).2 =
      stopWatching p st ∧
    (st.watchId = none → stopWatching p st = (p, st)) ∧
    ∀ id, st.watchId = some id →
      (stopWatching p st).2 = ⟨none, none, none⟩ ∧
      id ∉ (stopWatching p st).1 := by
  obtain ⟨w, pl, pt⟩ := st
  cases w with
  | none => exact ⟨rfl, fun _ => rfl, fun id h => Option.noConfusion h⟩
  | some id0 =>
    refine ⟨rfl, fun h => Option.noConfusion h, ?_⟩
    intro id h
    have : id0 = id := Option.some.inj h
    subst this
    exact ⟨rfl, Finset.not_mem_erase id0 p⟩

/-- Claim C8 witness: stopping a service holding watch handle 3 removes it
from the provider's registrations. -/
theorem stopWatching_idempotent_witness :
    (⟨some 3, none, none⟩ : ServiceState).watchId = some 3 ∧
    3 ∉ (stopWatching ({3} : Finset ℕ) ⟨some 3, none, none⟩).1 :=
  ⟨rfl, ((stopWatching_idempotent {3} ⟨some 3, none, none⟩).2.2 3 rfl).2⟩

/-- Claim C9: a successful one-shot fetch advances the singleton service's
shared estimator state exactly as a watch tick does — both leave the state
seeded with the fetched coordinate and timestamp — so the speed derived on
the next sample, from either path, is computed against the prior one-shot
fetch's coordinate and time. -/
theorem getCurrentPosition_advances_shared_state (st : ServiceState)
    (coords : Coords) (nowMs : ℝ) :
    getCurrentPosition st coords nowMs = watchPositionTick st coords nowMs ∧
    (getCurrentPosition st coords nowMs).2 =
      ⟨st.watchId, some coords, some nowMs⟩ ∧
    ∀ c2 t2, calculateSpeed (getCurrentPosition st coords nowMs).2 c2 t2 =
      calculateSpeed ⟨st.watchId, some coords, some nowMs⟩ c2 t2 := by
  have hstate : (getCurrentPosition st coords nowMs).2 =
      ⟨st.watchId, some coords, some nowMs⟩ := by
    obtain ⟨w, pl, pt⟩ := st
    cases pl with
    | none => cases pt <;> rfl
    | some prev =>
      cases pt with
      | none => rfl
      | some prevTs =>
        by_cases h : prevTs = 0 <;>
          simp [getCurrentPosition, calculateSpeed, h]
  exact ⟨rfl, hstate, fun c2 t2 => by rw [hstate]⟩

end LocationService

namespace DriverDashboard

/-- State of the `DriverDashboard` component relevant to tracking, together
with the provider-side registrations: the `isTracking` and `watchId` React
state, the list of geolocation watches currently registered with the
provider, and a fresh-handle counter. -/
structure DashWorld where
  isTracking : Bool
  watchId : Option ℕ
  tripStartTime : Option ℤ
  activeWatches : List ℕ
  nextWatchId : ℕ
  deriving DecidableEq

/-- Modelled from the spec: the repository's `watchPosition` helper is
imported by the dashboard from the location service but its defining module
is not among the available sources; per the specification's Sampler
contract it begins continuous sampling with the provider and returns an
opaque handle for cancellation. Here it registers a fresh watch handle. -/
def watchPosition (w : DashWorld) : ℕ × DashWorld :=
  (w.nextWatchId,
    { w with activeWatches := w.nextWatchId :: w.activeWatches,
             nextWatchId := w.nextWatchId + 1 })

/-- Embedding of the success path of `DriverDashboard.startTracking`
(permission granted, initial fix obtained): it registers a new continuous
watch, stores its handle in `watchId`, and sets `isTracking` and the trip
start time. The function performs no check of the current `isTracking`
state. -/
def startTracking (w : DashWorld) (now : ℤ) : DashWorld :=
  let p := watchPosition w
  { p.2 with watchId := some p.1, isTracking := true, tripStartTime := some now }

/-- Embedding of `DriverDashboard.stopTracking`: clears the stored watch
(if any), resets `watchId`, `isTracking` and the trip start time. -/
def stopTracking (w : DashWorld) : DashWorld :=
  let aw := match w.watchId with
    | some id => w.activeWatches.erase id
    | none => w.activeWatches
  { w with activeWatches := aw, watchId := none, isTracking := false,
           tripStartTime := none }

/-- Initial component state: not tracking, no watch, nothing registered. -/
def dashInit : DashWorld := ⟨false, none, none, [], 0⟩

/-- Operator actions available through the rendered controls. -/
inductive DashEvent where
  | clickStart (now : ℤ)
  | clickStop
  deriving DecidableEq

/-- The dashboard's UI dispatch: the component renders the Start button
only while `isTracking` is false and the Stop button only while it is
true, so each click reaches its handler only in the matching state. -/
def uiStep (w : DashWorld) : DashEvent → DashWorld
  | .clickStart now => if w.isTracking then w else startTracking w now
  | .clickStop => if w.isTracking then stopTracking w else w

/-- Dashboard state after a sequence of operator clicks from the initial
state. -/
def uiRun (evs : List DashEvent) : DashWorld := evs.foldl uiStep dashInit

/-- Reachable-state invariant of the UI-driven dashboard: `isTracking`
mirrors whether a handle is held, and the provider holds exactly the
stored handle's registration. -/
def DashInv (w : DashWorld) : Prop :=
  w.isTracking = w.watchId.isSome ∧
    match w.watchId with
    | some id => w.activeWatches = [id]
    | none => w.activeWatches = []

theorem dashInv_uiStep (w : DashWorld) (ev : DashEvent) (h : DashInv w) :
    DashInv (uiStep w ev) := by
  obtain ⟨w1, w2, w3, w4, w5⟩ := w
  cases ev with
  | clickStart now =>
    cases w1 with
    | true => simpa [uiStep] using h
    | false =>
      cases hw : w2 with
      | some id =>
        exact absurd (hw ▸ h.1) (by simp)
      | none =>
        have h4 : w4 = [] := by
          have := h.2
          rw [hw] at this
          exact this
        subst h4
        exact ⟨rfl, rfl⟩
  | clickStop =>
    cases w1 with
    | false => simpa [uiStep] using h
    | true =>
      cases hw : w2 with
      | none => exact absurd (hw ▸ h.1) (by simp)
      | some id =>
        have h4 : w4 = [id] := by
          have := h.2
          rw [hw] at this
          exact this
        subst h4
        subst hw
        refine ⟨rfl, ?_⟩
        show [id].erase id = []
        simp

theorem dashInv_uiRun (evs : List DashEvent) : DashInv (uiRun evs) := by
  suffices h : ∀ w, DashInv w → DashInv (evs.foldl uiStep w) from
    h dashInit ⟨rfl, rfl⟩
  induction evs with
  | nil => exact fun w hw => hw
  | cons ev t ih =>
    intro w hw
    exact ih (uiStep w ev) (dashInv_uiStep w ev hw)

/-- Claim C4 counterexample: `startTracking` itself checks no state, so a
second direct call without an intervening stop registers a second
provider watch — two registrations are active afterwards, and the first
handle is no longer stored. -/
theorem startTracking_twice_two_watches :
    (startTracking (startTracking dashInit 1) 2).activeWatches.length = 2 ∧
    ¬ (startTracking (startTracking dashInit 1) 2).activeWatches.length ≤ 1 ∧
    (startTracking dashInit 1).isTracking = true := by
  refine ⟨by decide, by decide, by decide⟩

/-- Claim C4 (amended): the rejection of a second start lives in the UI
layer, not in `startTracking`: while `isTracking` is true the Start
control is not rendered, so a start click in a tracking state is a no-op,
and along every sequence of rendered-control clicks from the initial
state at most one provider watch is ever registered. -/
theorem uiStart_rejected_while_tracking (w : DashWorld) (now : ℤ)
    (h : w.isTracking = true) :
    uiStep w (.clickStart now) = w ∧
    ∀ evs : List DashEvent, (uiRun evs).activeWatches.length ≤ 1 := by
  refine ⟨by simp [uiStep, h], ?_⟩
  intro evs
  have hinv := dashInv_uiRun evs
  cases hw : (uiRun evs).watchId with
  | some id =>
    have := hinv.2
    rw [hw] at this
    rw [this]
    exact le_refl 1
  | none =>
    have := hinv.2
    rw [hw] at this
    rw [this]
    exact Nat.zero_le 1

/-- Claim C4 witness: from a concretely tracking dashboard state, a start
click changes nothing, and a concrete click sequence with two start
attempts registers at most one watch. -/
theorem uiStart_rejected_while_tracking_witness :
    uiStep (startTracking dashInit 1) (.clickStart 2) =
      startTracking dashInit 1 ∧
    (uiRun [.clickStart 1, .clickStart 2, .clickStop,
      .clickStart 3]).activeWatches.length ≤ 1 :=
  ⟨(uiStart_rejected_while_tracking (startTracking dashInit 1) 2 rfl).1,
    (uiStart_rejected_while_tracking (startTracking dashInit 1) 2 rfl).2
      [.clickStart 1, .clickStart 2, .clickStop, .clickStart 3]⟩

end DriverDashboard
